import Mathlib

/-!
Verification of the PFCP interface agent (pfcpiface) of the UPFs repository.

The Go source under `pfcpiface/` is shallowly embedded: pure control flow
becomes Lean functions, external effects (DNS lookup, interface address
lookup, duration parsing, HTTP requests, Prometheus setup) become an
explicit environment oracle `Env`, and `log.Fatalln` (process termination)
becomes an explicit `fatal` outcome of the result type.
-/

namespace Pfcpiface

/-- One UE resource binding of a slice (upf.go, `UeResource`). -/
structure UeResource where
  name : String
  dnn : String
deriving DecidableEq, Repr

/-- Per-slice aggregate limits (upf.go, `SliceInfo`). -/
structure SliceInfo where
  name : String
  uplinkMbr : Nat
  downlinkMbr : Nat
  ulBurstBytes : Nat
  dlBurstBytes : Nat
  ueResList : List UeResource
deriving DecidableEq, Repr

/-- QoS configured value (upf.go, `QosConfigVal`). -/
structure QosConfigVal where
  cbs : Nat
  pbs : Nat
  ebs : Nat
  burstDurationMs : Nat
  schedulePriority : Nat
deriving DecidableEq, Repr

/-- Opaque model of an `IPPool` handle (its internals are outside src). -/
structure IPPool where
  cidr : String
deriving DecidableEq, Repr

/-- The relevant slice of the configuration struct `Conf` consumed by
`NewPFCPIface` and `NewUPF` (fields referenced in pfcpiface.go / upf.go). -/
structure Conf where
  enableP4rt : Bool
  enableEndMarker : Bool
  enableFlowMeasure : Bool
  enableHBTimer : Bool
  maxReqRetries : Nat
  readTimeout : Nat
  respTimeout : String
  heartBeatInterval : String
  accessIfaceName : String
  coreIfaceName : String
  cpifaceNodeID : String
  cpifaceUseFQDN : Bool
  cpifaceEnableUeIPAlloc : Bool
  cpifaceUEIPPool : String
  cpifaceDnn : String
  cpifacePeers : List String
  cpifaceHTTPPort : String
deriving DecidableEq, Repr

/-- Environment oracle: outcomes of the external calls `NewUPF`,
`mustInit` and `PushPFCPInfoNew` make.  IP addresses are modelled as
`Nat`.  `setupPromOk` is the outcome of `setupProm` in `mustInit`;
`httpPostOk n` is whether the n-th HTTP POST of the registration loop
succeeds. -/
structure Env where
  fqdnHostname : Except String String
  lookupHost : String → Except String (List String)
  parseDuration : String → Except String Nat
  getUnicastAddressFromInterface : String → Except String Nat
  newIPPool : String → Except String IPPool
  setupPromOk : Bool
  httpPostOk : Nat → Bool

/-- The `upf` runtime-context struct (upf.go).  `datapath` calls are kept
outside the struct (passed as functions); channels are modelled by their
capacity. -/
structure Upf where
  enableUeIPAlloc : Bool
  enableEndMarker : Bool
  enableFlowMeasure : Bool
  accessIface : String
  coreIface : String
  ippoolCidr : String
  accessIP : Option Nat
  coreIP : Option Nat
  nodeID : String
  ippool : Option IPPool
  peers : List String
  dnn : String
  reportNotifyChanCap : Nat
  sliceInfo : Option SliceInfo
  readTimeout : Nat
  hostname : String
  maxReqRetries : Nat
  respTimeout : Nat
  enableHBTimer : Bool
  hbInterval : Nat
deriving DecidableEq, Repr

/-- Errors surfaced by `upf` methods.  `errInvalidArgument` is
`ErrInvalidArgument("sliceInfo", ...)`; `datapathErr` wraps the error of a
datapath backend call (error text as `String`). -/
inductive UpfErr where
  | errInvalidArgument (field : String)
  | datapathErr (msg : String)
deriving DecidableEq, Repr

/-- Model of `upf.addSliceInfo` (upf.go lines 82-90).  The backend call
`u.datapath.AddSliceInfo` is the function argument `backend` (`none` =
success, `some msg` = error).  The result carries the updated `upf`
state, the returned error, and the list of backend calls performed, so
that "performs no backend call" is expressible. -/
def addSliceInfo (backend : SliceInfo → Option String) (u : Upf)
    (sliceInfo : Option SliceInfo) : Upf × Option UpfErr × List SliceInfo :=
  match sliceInfo with
  | none => (u, some (UpfErr.errInvalidArgument "sliceInfo"), [])
  | some s =>
      let u2 : Upf := { u with sliceInfo := some s }
      (u2, (backend s).map UpfErr.datapathErr, [s])

/-- The `log.Fatalln` call sites of `NewUPF` (upf.go), each terminating
the process. -/
inductive FatalReason where
  | unableToGetHostname
  | unableToResolveHostname
  | unableToParseRespTimeout
  | unableToParseHeartBeatInterval
  | ipPoolInitFailed
deriving DecidableEq, Repr

/-- Outcome of `NewUPF`: process termination via `log.Fatalln`, a plain
`return nil`, or a constructed `upf`. -/
inductive NewUPFResult where
  | fatal (r : FatalReason)
  | retNil
  | ok (u : Upf)
deriving DecidableEq, Repr

/-- The node-identity resolution prefix of `NewUPF` (upf.go lines
98-114): take `conf.CPIface.NodeID`; if `UseFQDN` and it is empty,
obtain the FQDN hostname (fatal on failure); then, if non-empty, resolve
it with `net.LookupHost` (fatal on failure) and keep the first returned
host. -/
def nodeIDStep (env : Env) (conf : Conf) : Except FatalReason String :=
  let nodeID0 := conf.cpifaceNodeID
  let step1 : Except FatalReason String :=
    if conf.cpifaceUseFQDN && decide (nodeID0 = "") then
      match env.fqdnHostname with
      | Except.error _ => Except.error FatalReason.unableToGetHostname
      | Except.ok h => Except.ok h
    else
      Except.ok nodeID0
  match step1 with
  | Except.error r => Except.error r
  | Except.ok nid =>
      if nid ≠ "" then
        match env.lookupHost nid with
        | Except.error _ => Except.error FatalReason.unableToResolveHostname
        | Except.ok hosts => Except.ok (hosts.headD "")
      else
        Except.ok nid

/-- The `upf` struct literal of `NewUPF` (upf.go lines 116-132): channel
fields are modelled by capacity, durations start at the Go zero value and
are filled in by the later parsing steps. -/
def baseUpf (conf : Conf) (nid : String) : Upf :=
  { enableUeIPAlloc := conf.cpifaceEnableUeIPAlloc
    enableEndMarker := conf.enableEndMarker
    enableFlowMeasure := conf.enableFlowMeasure
    accessIface := conf.accessIfaceName
    coreIface := conf.coreIfaceName
    ippoolCidr := conf.cpifaceUEIPPool
    accessIP := none
    coreIP := none
    nodeID := nid
    ippool := none
    peers := conf.cpifacePeers
    dnn := conf.cpifaceDnn
    reportNotifyChanCap := 1024
    sliceInfo := none
    readTimeout := conf.readTimeout
    hostname := conf.cpifaceNodeID
    maxReqRetries := conf.maxReqRetries
    respTimeout := 0
    enableHBTimer := conf.enableHBTimer
    hbInterval := 0 }

/-- The interface-address block of `NewUPF` (upf.go lines 143-156): when
P4Runtime is disabled, look up the unicast addresses of the access and
core interfaces; a lookup failure makes `NewUPF` return nil (`none`
here). -/
def ipStep (env : Env) (conf : Conf) (u : Upf) : Option Upf :=
  if conf.enableP4rt then
    some u
  else
    match env.getUnicastAddressFromInterface conf.accessIfaceName with
    | Except.error _ => none
    | Except.ok a =>
        match env.getUnicastAddressFromInterface conf.coreIfaceName with
        | Except.error _ => none
        | Except.ok c => some { u with accessIP := some a, coreIP := some c }

/-- The heartbeat-interval block of `NewUPF` (upf.go lines 163-170):
when the heartbeat timer is enabled and an interval string is configured,
parse it; a parse failure is process-fatal. -/
def hbStep (env : Env) (conf : Conf) (u : Upf) : Except FatalReason Upf :=
  if u.enableHBTimer then
    if conf.heartBeatInterval ≠ "" then
      match env.parseDuration conf.heartBeatInterval with
      | Except.error _ => Except.error FatalReason.unableToParseHeartBeatInterval
      | Except.ok hb => Except.ok { u with hbInterval := hb }
    else
      Except.ok u
  else
    Except.ok u

/-- The IP-pool block of `NewUPF` (upf.go lines 172-177): when UE IP
allocation is enabled, initialize the pool from the configured CIDR; an
initialization failure is process-fatal. -/
def poolStep (env : Env) (u : Upf) : Except FatalReason Upf :=
  if u.enableUeIPAlloc then
    match env.newIPPool u.ippoolCidr with
    | Except.error _ => Except.error FatalReason.ipPoolInitFailed
    | Except.ok pool => Except.ok { u with ippool := some pool }
  else
    Except.ok u

/-- Model of `NewUPF` (upf.go lines 92-187).  External calls are drawn
from `env`; `log.Fatalln` sites return `NewUPFResult.fatal`; the two
`return nil` sites (unicast-address lookup failure on the access or core
interface when P4Runtime is disabled) return `NewUPFResult.retNil`.
The `u.datapath.SetUpfInfo` call and the debug prints do not change the
constructed struct. -/
def NewUPF (env : Env) (conf : Conf) : NewUPFResult :=
  match nodeIDStep env conf with
  | Except.error r => NewUPFResult.fatal r
  | Except.ok nid =>
      match ipStep env conf (baseUpf conf nid) with
      | none => NewUPFResult.retNil
      | some u1 =>
          match env.parseDuration conf.respTimeout with
          | Except.error _ => NewUPFResult.fatal FatalReason.unableToParseRespTimeout
          | Except.ok rt =>
              match hbStep env conf { u1 with respTimeout := rt } with
              | Except.error r => NewUPFResult.fatal r
              | Except.ok u3 =>
                  match poolStep env u3 with
                  | Except.error r => NewUPFResult.fatal r
                  | Except.ok u4 => NewUPFResult.ok u4

/-- The two datapath backend variants wired by `NewPFCPIface`
(pfcpiface.go lines 54-58): the programmable-switch backend `UP4` and the
software-pipeline backend `bess`. -/
inductive DatapathVariant where
  | up4
  | bess
deriving DecidableEq, Repr

/-- State of a `PFCPIface` (pfcpiface.go).  The fields set later by
`mustInit` (`node`, prometheus collectors, `httpSrv`) are modelled by
initialization flags. -/
structure PFCPIfaceState where
  conf : Conf
  fp : DatapathVariant
  httpEndpoint : String
  upfRes : NewUPFResult
  nodeInitialized : Bool
  promInitialized : Bool
  httpSrvInitialized : Bool
deriving DecidableEq, Repr

/-- Model of `NewPFCPIface` (pfcpiface.go lines 49-70): pick the backend
variant from `conf.EnableP4rt`, compute the HTTP endpoint (default port
8080), and construct the `upf` via `NewUPF`. -/
def NewPFCPIface (env : Env) (conf : Conf) : PFCPIfaceState :=
  let fp := if conf.enableP4rt then DatapathVariant.up4 else DatapathVariant.bess
  let httpPort := if conf.cpifaceHTTPPort != "" then conf.cpifaceHTTPPort else "8080"
  { conf := conf
    fp := fp
    httpEndpoint := ":" ++ httpPort
    upfRes := NewUPF env conf
    nodeInitialized := false
    promInitialized := false
    httpSrvInitialized := false }

/-- Outcome of `mustInit`: `log.Fatalln("setupProm failed", ...)` or the
updated interface state. -/
inductive MustInitResult where
  | fatal
  | ok (p : PFCPIfaceState)
deriving DecidableEq, Repr

/-- Model of `PFCPIface.mustInit` (pfcpiface.go lines 72-93): create the
PFCP node, set up the config handler and the prometheus collectors
(process-fatal on `setupProm` error), then create the HTTP server.  None
of these steps touches `fp`, `conf`, `httpEndpoint` or the `upf`. -/
def mustInit (env : Env) (p : PFCPIfaceState) : MustInitResult :=
  let p1 : PFCPIfaceState := { p with nodeInitialized := true }
  if env.setupPromOk then
    MustInitResult.ok { p1 with promInitialized := true, httpSrvInitialized := true }
  else
    MustInitResult.fatal

/-- Outcome of the `ListenAndServe` call made by the HTTP-server
goroutine that `Run` spawns (pfcpiface.go lines 106-112): still serving,
returned `http.ErrServerClosed` after a shutdown, or failed with some
other error. -/
inductive HttpServeOutcome where
  | serving
  | errServerClosed
  | failedWith (msg : String)
deriving DecidableEq, Repr

/-- Whether the HTTP-server goroutine terminates the process: it calls
`log.Fatalln("http server failed", err)` exactly when `ListenAndServe`
returns an error other than `http.ErrServerClosed`. -/
def httpServeFatalB : HttpServeOutcome → Bool
  | HttpServeOutcome.serving => false
  | HttpServeOutcome.errServerClosed => false
  | HttpServeOutcome.failedWith _ => true

/-- Process-fatal conditions reachable on the startup path
(`NewPFCPIface`, then `Run`: `mustInit` and the HTTP-server goroutine). -/
inductive StartupFatal where
  | newUPFFatal (r : FatalReason)
  | setupPromFailed
  | httpServerFailed
deriving DecidableEq, Repr

/-- Outcome of the startup path: process termination, or a running
process (recording whether `NewUPF` returned nil). -/
inductive StartupResult where
  | fatal (f : StartupFatal)
  | running (upfIsNil : Bool)
deriving DecidableEq, Repr

/-- Composite startup path: `NewPFCPIface` (whose `NewUPF` call may
terminate the process), then `Run`'s `mustInit` call (whose `setupProm`
failure terminates the process), then the HTTP-server goroutine `Run`
spawns (whose `ListenAndServe` failure with an error other than
`ErrServerClosed` terminates the process; `hs` is that call's outcome).
A nil `upf` from `NewUPF` does not stop startup: `Run` still calls
`mustInit` and spawns the goroutine. -/
def startup (env : Env) (conf : Conf) (hs : HttpServeOutcome) : StartupResult :=
  match NewUPF env conf with
  | NewUPFResult.fatal r => StartupResult.fatal (StartupFatal.newUPFFatal r)
  | NewUPFResult.retNil =>
      if env.setupPromOk then
        if httpServeFatalB hs then StartupResult.fatal StartupFatal.httpServerFailed
        else StartupResult.running true
      else StartupResult.fatal StartupFatal.setupPromFailed
  | NewUPFResult.ok _ =>
      if env.setupPromOk then
        if httpServeFatalB hs then StartupResult.fatal StartupFatal.httpServerFailed
        else StartupResult.running false
      else StartupResult.fatal StartupFatal.setupPromFailed

/-- Whether a `NewUPF` outcome is process termination. -/
def isFatalB : NewUPFResult → Bool
  | NewUPFResult.fatal _ => true
  | NewUPFResult.retNil => false
  | NewUPFResult.ok _ => false

/-- Whether a startup outcome is process termination. -/
def startupIsFatalB : StartupResult → Bool
  | StartupResult.fatal _ => true
  | StartupResult.running _ => false

/-- Helper: whether an external call or step failed. -/
def isErr {ε α : Type} : Except ε α → Bool
  | Except.error _ => true
  | Except.ok _ => false

/-- Node-identity resolution (upf.go lines 98-114) fails: FQDN hostname
lookup or `net.LookupHost` on the configured node identity errors. -/
def identityResolutionFailsB (env : Env) (conf : Conf) : Bool :=
  match nodeIDStep env conf with
  | Except.error _ => true
  | Except.ok _ => false

/-- Unicast-address lookup on the access or core interface fails while
the software-pipeline backend is selected (upf.go lines 143-156); this
makes `NewUPF` return nil rather than terminate. -/
def unicastLookupFailsB (env : Env) (conf : Conf) : Bool :=
  !conf.enableP4rt &&
    (isErr (env.getUnicastAddressFromInterface conf.accessIfaceName) ||
     isErr (env.getUnicastAddressFromInterface conf.coreIfaceName))

/-- The response-timeout duration cannot be parsed (upf.go lines 158-161). -/
def respParseFailsB (env : Env) (conf : Conf) : Bool :=
  isErr (env.parseDuration conf.respTimeout)

/-- The heartbeat interval is configured, enabled, and cannot be parsed
(upf.go lines 163-170). -/
def hbParseFailsB (env : Env) (conf : Conf) : Bool :=
  conf.enableHBTimer && conf.heartBeatInterval != "" &&
    isErr (env.parseDuration conf.heartBeatInterval)

/-- UE IP allocation is enabled and the IP pool cannot be initialized
from the configured CIDR (upf.go lines 172-177). -/
def poolInitFailsB (env : Env) (conf : Conf) : Bool :=
  conf.cpifaceEnableUeIPAlloc && isErr (env.newIPPool conf.cpifaceUEIPPool)

/-- The unrecoverable configuration-error conditions under which `NewUPF`
terminates the process: node-identity resolution failure, or — provided
the unicast-address lookups did not already make `NewUPF` return nil —
an unparsable response timeout, an unparsable heartbeat interval, or an
IP pool initialization failure. -/
def newUPFFatalCondB (env : Env) (conf : Conf) : Bool :=
  identityResolutionFailsB env conf ||
    (!identityResolutionFailsB env conf && !unicastLookupFailsB env conf &&
      (respParseFailsB env conf || hbParseFailsB env conf || poolInitFailsB env conf))

/-- An outbound HTTP request as built by `PushPFCPInfoNew`
(pfcpiface.go lines 170-211). -/
structure HttpRequest where
  method : String
  url : String
  contentType : String
  body : String
deriving DecidableEq, Repr

/-- JSON encoding of `PfcpInfo` (field tag `json:"ip"`). -/
def pfcpInfoJson (ip : String) : String :=
  "\x7b\"ip\":\"" ++ ip ++ "\"\x7d"

/-- The registration request of `PushPFCPInfoNew`: a POST of the JSON
node address to the external registry. -/
def pfcpRegisterRequest (ip : String) : HttpRequest :=
  { method := "POST"
    url := "http://upf-http:8081/v1/register/pcfp"
    contentType := "application/json"
    body := pfcpInfoJson ip }

/-- The retry loop of `PushPFCPInfoNew`: issue the request, and on error
sleep one second and try again, until a request succeeds.  `fuel` bounds
how many attempts the model unrolls (the Go loop is unbounded); `i` is
the index of the next attempt.  Returns the total number of requests
issued when one succeeds within `fuel`, `none` if none succeeded. -/
def pushAttempts (env : Env) : Nat → Nat → Option Nat
  | 0, _ => none
  | fuel + 1, i =>
      if env.httpPostOk i then some (i + 1) else pushAttempts env fuel (i + 1)

/-- Observable startup events of `PFCPIface.Run` (pfcpiface.go lines
95-130), in program order. -/
inductive RunEvent where
  | mustInitDone
  | httpListenStarted
  | signalHandlersInstalled
  | pfcpInfoPushed (requests : Nat)
  | serveStarted
deriving DecidableEq, Repr

/-- Model of `PFCPIface.Run` with simulation mode disabled (the default):
`mustInit` (process-fatal on `setupProm` failure), start the HTTP server
goroutine, install the signal handlers, then call `PushPFCPInfoNew`
synchronously, and only after it returns call the blocking
`p.node.Serve()`.  The trace records the events that happen; if the
registration loop never succeeds within `fuel` attempts, everything after
it — in particular `serveStarted` — is absent. -/
def runTrace (env : Env) (fuel : Nat) : List RunEvent :=
  if env.setupPromOk then
    let pre := [RunEvent.mustInitDone, RunEvent.httpListenStarted,
                RunEvent.signalHandlersInstalled]
    match pushAttempts env fuel 0 with
    | some n => pre ++ [RunEvent.pfcpInfoPushed n, RunEvent.serveStarted]
    | none => pre
  else
    []

/-- Shutdown steps recorded by the `Stop` model, in the order performed. -/
inductive StopEvent where
  | httpShutdown
  | nodeStop
  | nodeWait
deriving DecidableEq, Repr

/-- Coarse process state acted on by `PFCPIface.Stop`: whether the HTTP
server still accepts inbound requests, whether the peer transport is
open, how many peer-connection workers are still running, and the trace
of shutdown steps taken so far. -/
structure ProcState where
  httpAccepting : Bool
  transportOpen : Bool
  workersRunning : Nat
  trace : List StopEvent
deriving DecidableEq, Repr

/-- Effect of `p.httpSrv.Shutdown(...)`: the HTTP server stops accepting
new inbound requests. -/
def httpSrvShutdown (s : ProcState) : ProcState :=
  { s with httpAccepting := false, trace := s.trace ++ [StopEvent.httpShutdown] }

/-- Effect of `p.node.Stop()`: the peer transport is closed. -/
def nodeStop (s : ProcState) : ProcState :=
  { s with transportOpen := false, trace := s.trace ++ [StopEvent.nodeStop] }

/-- Effect of `p.node.Done()`: wait until every peer-connection worker
has exited. -/
def nodeDone (s : ProcState) : ProcState :=
  { s with workersRunning := 0, trace := s.trace ++ [StopEvent.nodeWait] }

/-- Model of `PFCPIface.Stop` (pfcpiface.go lines 231-248): shut down the
HTTP server, then stop the PFCP node, then wait for the node's workers. -/
def Stop (s : ProcState) : ProcState :=
  nodeDone (nodeStop (httpSrvShutdown s))

/-- Operating-system signals as seen by the `Run` signal handler. -/
inductive OsSignal where
  | sigint
  | sigterm
  | other (n : Nat)
deriving DecidableEq, Repr

/-- The signals subscribed in `Run` (pfcpiface.go lines 114-116):
`os.Interrupt` (SIGINT) and `syscall.SIGTERM`. -/
def signalTriggersStop : OsSignal → Bool
  | OsSignal.sigint => true
  | OsSignal.sigterm => true
  | OsSignal.other _ => false

/-- The signal-handler goroutine of `Run` (pfcpiface.go lines 118-122):
a subscribed signal invokes `p.Stop()`; other signals are not delivered
to the handler. -/
def handleSignal (sig : OsSignal) (s : ProcState) : ProcState :=
  if signalTriggersStop sig then Stop s else s

/-- A PFCP session record: F-SEID key material plus its rule sets.  Rule
contents are opaque (`Nat` identifiers). -/
structure PFCPSession where
  localSEID : Nat
  remoteSEID : Nat
  pdrs : List Nat
  fars : List Nat
  qers : List Nat
deriving DecidableEq, Repr

/-- The session map underlying the store, keyed by F-SEID. -/
abbrev SessionsMap : Type := List (Nat × PFCPSession)

/-- Errors surfaced by store operations. -/
inductive StoreErr where
  | backendFailure (msg : String)
deriving DecidableEq, Repr

/-- Modelled from the spec: lookup half of `SessionsStore.GetSession`
(the interface is declared in the repository but its implementation is
not under src).  Non-mutating read by F-SEID; `none` means found=false. -/
def GetSession (st : SessionsMap) (fseid : Nat) : Option PFCPSession :=
  (List.find? (fun kv => kv.1 = fseid) st).map Prod.snd

/-- Insert-or-replace on the session map, keyed by F-SEID. -/
def putIntoMap (st : SessionsMap) (fseid : Nat) (s : PFCPSession) : SessionsMap :=
  if (List.find? (fun kv => kv.1 = fseid) st).isSome then
    List.map (fun kv => if kv.1 = fseid then (fseid, s) else kv) st
  else
    st ++ [(fseid, s)]

/-- Modelled from the spec: `SessionsStore.PutSession` (the interface is
declared in the repository but its implementation is not under src).
Inserts or replaces the session keyed by its F-SEID; when `pushPDR` is
true the rules are first programmed into the datapath backend, and on
backend failure the store is left unchanged and a `backendFailure` error
is returned; `pConnId` and `msgType` do not steer control flow. -/
def PutSession (backend : PFCPSession → Option String) (st : SessionsMap)
    (session : PFCPSession) (_pConnId : Nat) (pushPDR : Bool) (_msgType : Nat) :
    SessionsMap × Option StoreErr :=
  if pushPDR then
    match backend session with
    | some e => (st, some (StoreErr.backendFailure e))
    | none => (putIntoMap st session.localSEID session, none)
  else
    (putIntoMap st session.localSEID session, none)

/-- Sample environment in which every external call succeeds; the
registration POST succeeds from the third attempt on. -/
def envAllOk : Env :=
  { fqdnHostname := Except.ok "upf.local"
    lookupHost := fun h => Except.ok [h]
    parseDuration := fun _ => Except.ok 5
    getUnicastAddressFromInterface := fun _ => Except.ok 10
    newIPPool := fun c => Except.ok { cidr := c }
    setupPromOk := true
    httpPostOk := fun n => 2 ≤ n }

/-- Sample environment differing from `envAllOk` only in `setupProm`
failing. -/
def envNoProm : Env :=
  { envAllOk with setupPromOk := false }

/-- Sample environment in which the unicast-address lookup fails for the
interface named "access0" and succeeds elsewhere. -/
def envAccessDown : Env :=
  { envAllOk with
    getUnicastAddressFromInterface := fun i =>
      if i = "access0" then Except.error "no unicast address" else Except.ok 10 }

/-- Sample environment in which the registration POST never succeeds. -/
def envPostNeverOk : Env :=
  { envAllOk with httpPostOk := fun _ => false }

/-- Sample configuration selecting the software-pipeline backend. -/
def confBess : Conf :=
  { enableP4rt := false
    enableEndMarker := false
    enableFlowMeasure := false
    enableHBTimer := true
    maxReqRetries := 3
    readTimeout := 15
    respTimeout := "2s"
    heartBeatInterval := "5s"
    accessIfaceName := "access0"
    coreIfaceName := "core0"
    cpifaceNodeID := "upf-node"
    cpifaceUseFQDN := false
    cpifaceEnableUeIPAlloc := true
    cpifaceUEIPPool := "10.250.0.0/16"
    cpifaceDnn := "internet"
    cpifacePeers := ["smf1"]
    cpifaceHTTPPort := "" }

/-- Sample configuration selecting the programmable-switch backend. -/
def confP4 : Conf :=
  { confBess with enableP4rt := true }

/-- The `upf` record that `NewUPF envAllOk confBess` constructs. -/
def upfSample : Upf :=
  { enableUeIPAlloc := true
    enableEndMarker := false
    enableFlowMeasure := false
    accessIface := "access0"
    coreIface := "core0"
    ippoolCidr := "10.250.0.0/16"
    accessIP := some 10
    coreIP := some 10
    nodeID := "upf-node"
    ippool := some { cidr := "10.250.0.0/16" }
    peers := ["smf1"]
    dnn := "internet"
    reportNotifyChanCap := 1024
    sliceInfo := none
    readTimeout := 15
    hostname := "upf-node"
    maxReqRetries := 3
    respTimeout := 5
    enableHBTimer := true
    hbInterval := 5 }

/-- Sample slice info. -/
def sliceSample : SliceInfo :=
  { name := "slice-a"
    uplinkMbr := 1000
    downlinkMbr := 2000
    ulBurstBytes := 64
    dlBurstBytes := 128
    ueResList := [{ name := "ue-group-1", dnn := "internet" }] }

/-- Sample session keyed by F-SEID 42. -/
def sessionSample : PFCPSession :=
  { localSEID := 42
    remoteSEID := 7
    pdrs := [1]
    fars := [2]
    qers := [3] }

/-! Helper lemmas about the `NewUPF` steps. -/

theorem ipStep_preserves (env : Env) (conf : Conf) (u u2 : Upf)
    (h : ipStep env conf u = some u2) :
    u2.reportNotifyChanCap = u.reportNotifyChanCap ∧
    u2.enableHBTimer = u.enableHBTimer ∧
    u2.enableUeIPAlloc = u.enableUeIPAlloc ∧
    u2.ippoolCidr = u.ippoolCidr := by
  unfold ipStep at h
  split at h
  · cases h
    exact ⟨rfl, rfl, rfl, rfl⟩
  · cases ha : env.getUnicastAddressFromInterface conf.accessIfaceName <;> rw [ha] at h
    · cases h
    · cases hc : env.getUnicastAddressFromInterface conf.coreIfaceName <;> rw [hc] at h
      · cases h
      · cases h
        exact ⟨rfl, rfl, rfl, rfl⟩

theorem hbStep_preserves (env : Env) (conf : Conf) (u u2 : Upf)
    (h : hbStep env conf u = Except.ok u2) :
    u2.reportNotifyChanCap = u.reportNotifyChanCap ∧
    u2.enableUeIPAlloc = u.enableUeIPAlloc ∧
    u2.ippoolCidr = u.ippoolCidr := by
  unfold hbStep at h
  split at h
  · split at h
    · cases hp : env.parseDuration conf.heartBeatInterval <;> rw [hp] at h
      · cases h
      · cases h
        exact ⟨rfl, rfl, rfl⟩
    · cases h
      exact ⟨rfl, rfl, rfl⟩
  · cases h
    exact ⟨rfl, rfl, rfl⟩

theorem poolStep_preserves (env : Env) (u u2 : Upf)
    (h : poolStep env u = Except.ok u2) :
    u2.reportNotifyChanCap = u.reportNotifyChanCap := by
  unfold poolStep at h
  split at h
  · cases hp : env.newIPPool u.ippoolCidr <;> rw [hp] at h
    · cases h
    · cases h
      rfl
  · cases h
    rfl

theorem ipStep_none_iff (env : Env) (conf : Conf) (u : Upf) :
    (ipStep env conf u).isNone = unicastLookupFailsB env conf := by
  unfold ipStep unicastLookupFailsB
  cases hp : conf.enableP4rt <;> simp [hp]
  cases ha : env.getUnicastAddressFromInterface conf.accessIfaceName <;> simp [ha, isErr]
  cases hc : env.getUnicastAddressFromInterface conf.coreIfaceName <;> simp [hc, isErr]

theorem hbStep_error_iff (env : Env) (conf : Conf) (u : Upf)
    (hhb : u.enableHBTimer = conf.enableHBTimer) :
    isErr (hbStep env conf u) = hbParseFailsB env conf := by
  unfold hbStep hbParseFailsB
  rw [hhb]
  cases he : conf.enableHBTimer
  · simp [isErr]
  · by_cases hi : conf.heartBeatInterval = ""
    · simp [hi, isErr]
    · simp only [hi, if_neg, ne_eq, not_false_eq_true, if_true]
      cases hp : env.parseDuration conf.heartBeatInterval <;>
        simp [hp, isErr, hi]

theorem poolStep_error_iff (env : Env) (conf : Conf) (u : Upf)
    (halloc : u.enableUeIPAlloc = conf.cpifaceEnableUeIPAlloc)
    (hcidr : u.ippoolCidr = conf.cpifaceUEIPPool) :
    isErr (poolStep env u) = poolInitFailsB env conf := by
  unfold poolStep poolInitFailsB
  rw [halloc, hcidr]
  cases he : conf.cpifaceEnableUeIPAlloc
  · simp [isErr]
  · simp only [if_true]
    cases hp : env.newIPPool conf.cpifaceUEIPPool <;> simp [hp, isErr]

/-! Claim theorems. -/

/-- C3: for every UPF state and every non-nil slice info S, `addSliceInfo`
replaces the single stored slice info with S (all other fields unchanged,
so at most one slice info is active afterwards), invokes the backend's
`AddSliceInfo` exactly once with S, and returns the backend's result. -/
theorem addSliceInfo_nonnil_replaces_and_programs
    (backend : SliceInfo → Option String) (u : Upf) (s : SliceInfo) :
    (addSliceInfo backend u (some s)).1 = { u with sliceInfo := some s } ∧
    (addSliceInfo backend u (some s)).2.1 = (backend s).map UpfErr.datapathErr ∧
    (addSliceInfo backend u (some s)).2.2 = [s] :=
  ⟨rfl, rfl, rfl⟩

/-- C4: for every UPF state, `addSliceInfo` with a nil slice info returns
the `InvalidArgument` error, performs no backend call, and leaves the
whole UPF state unchanged. -/
theorem addSliceInfo_nil_rejected
    (backend : SliceInfo → Option String) (u : Upf) :
    addSliceInfo backend u none
      = (u, some (UpfErr.errInvalidArgument "sliceInfo"), []) :=
  rfl

/-- C9: `addSliceInfo` assigns S to the stored slice-info field before the
backend call, so even when the backend errors the stored slice info has
been replaced by S — the operation is not atomic with respect to backend
failure. -/
theorem addSliceInfo_not_atomic
    (backend : SliceInfo → Option String) (u : Upf) (s : SliceInfo) (msg : String)
    (hb : backend s = some msg) :
    (addSliceInfo backend u (some s)).1.sliceInfo = some s ∧
    (addSliceInfo backend u (some s)).2.1 = some (UpfErr.datapathErr msg) := by
  unfold addSliceInfo
  simp [hb]

/-- Witness for C9 at a concrete backend failure. -/
theorem addSliceInfo_not_atomic_witness :
    (addSliceInfo (fun _ => some "dp error") upfSample (some sliceSample)).1.sliceInfo
        = some sliceSample ∧
    (addSliceInfo (fun _ => some "dp error") upfSample (some sliceSample)).2.1
        = some (UpfErr.datapathErr "dp error") :=
  addSliceInfo_not_atomic (fun _ => some "dp error") upfSample sliceSample "dp error" rfl

/-- C7: SIGINT and SIGTERM invoke `Stop`, and `Stop` performs its steps in
order — shut down the HTTP server (stop accepting inbound requests), then
stop the PFCP node (close the peer transport), then wait for the node's
workers — so at return no worker is still running. -/
theorem signal_shutdown_order (s : ProcState) :
    handleSignal OsSignal.sigint s = Stop s ∧
    handleSignal OsSignal.sigterm s = Stop s ∧
    (Stop s).trace
      = s.trace ++ [StopEvent.httpShutdown, StopEvent.nodeStop, StopEvent.nodeWait] ∧
    (Stop s).httpAccepting = false ∧
    (Stop s).transportOpen = false ∧
    (Stop s).workersRunning = 0 := by
  refine ⟨rfl, rfl, ?_, rfl, rfl, rfl⟩
  simp [Stop, httpSrvShutdown, nodeStop, nodeDone]

/-- C2: the datapath backend variant is chosen exactly once at
construction — `UP4` iff `EnableP4rt`, else `bess` — and `mustInit`, the
only later operation that modifies the interface state, leaves the
variant unchanged. -/
theorem backend_variant_static
    (env env2 : Env) (conf : Conf) (p2 : PFCPIfaceState)
    (h : mustInit env2 (NewPFCPIface env conf) = MustInitResult.ok p2) :
    ((NewPFCPIface env conf).fp = DatapathVariant.up4 ↔ conf.enableP4rt = true) ∧
    ((NewPFCPIface env conf).fp = DatapathVariant.bess ↔ conf.enableP4rt = false) ∧
    p2.fp = (NewPFCPIface env conf).fp := by
  refine ⟨?_, ?_, ?_⟩
  · cases hp : conf.enableP4rt <;> simp [NewPFCPIface, hp]
  · cases hp : conf.enableP4rt <;> simp [NewPFCPIface, hp]
  · unfold mustInit at h
    split at h
    · cases h
      rfl
    · cases h

/-- Witness for C2 with the software-pipeline configuration. -/
theorem backend_variant_static_witness :
    ((NewPFCPIface envAllOk confBess).fp = DatapathVariant.up4
        ↔ confBess.enableP4rt = true) ∧
    ((NewPFCPIface envAllOk confBess).fp = DatapathVariant.bess
        ↔ confBess.enableP4rt = false) ∧
    ({ { NewPFCPIface envAllOk confBess with nodeInitialized := true } with
        promInitialized := true, httpSrvInitialized := true } : PFCPIfaceState).fp
      = (NewPFCPIface envAllOk confBess).fp :=
  backend_variant_static envAllOk envAllOk confBess _ rfl

/-- C5: for every configuration accepted by `NewUPF`, the usage-report
notification channel of the constructed UPF is created with capacity
exactly 1024, hence at least one thousand, independent of any
configuration value. -/
theorem report_chan_capacity
    (env : Env) (conf : Conf) (u : Upf)
    (h : NewUPF env conf = NewUPFResult.ok u) :
    u.reportNotifyChanCap = 1024 ∧ 1000 ≤ u.reportNotifyChanCap := by
  unfold NewUPF at h
  cases hn : nodeIDStep env conf <;> simp only [hn] at h
  case error r => cases h
  case ok nid =>
  cases hip : ipStep env conf (baseUpf conf nid) <;> simp only [hip] at h
  case none => cases h
  case some u1 =>
  cases hrt : env.parseDuration conf.respTimeout <;> simp only [hrt] at h
  case error e => cases h
  case ok rt =>
  cases hhb : hbStep env conf { u1 with respTimeout := rt } <;> simp only [hhb] at h
  case error r => cases h
  case ok u3 =>
  cases hpool : poolStep env u3 <;> simp only [hpool] at h
  case error r => cases h
  case ok u4 =>
  cases h
  have c1 : u1.reportNotifyChanCap = 1024 :=
    (ipStep_preserves env conf (baseUpf conf nid) u1 hip).1
  have c2 : u3.reportNotifyChanCap = u1.reportNotifyChanCap :=
    (hbStep_preserves env conf { u1 with respTimeout := rt } u3 hhb).1
  have c3 : u.reportNotifyChanCap = u3.reportNotifyChanCap :=
    poolStep_preserves env u3 u hpool
  refine ⟨?_, ?_⟩ <;> omega

/-- Witness for C5 on the sample software-pipeline configuration. -/
theorem report_chan_capacity_witness :
    upfSample.reportNotifyChanCap = 1024 ∧ 1000 ≤ upfSample.reportNotifyChanCap :=
  report_chan_capacity envAllOk confBess upfSample rfl

/-- C10: when the software-pipeline backend is selected (`EnableP4rt`
false) and the unicast address lookup for the access or core interface
fails, `NewUPF` returns nil — neither a UPF handle nor a process-fatal
error — and `NewPFCPIface` therefore holds a nil `upf` with no error
value. -/
theorem newUPF_nil_on_unicast_failure
    (env : Env) (conf : Conf) (nid : String)
    (hid : nodeIDStep env conf = Except.ok nid)
    (hp4 : conf.enableP4rt = false)
    (hfail : isErr (env.getUnicastAddressFromInterface conf.accessIfaceName) = true ∨
             isErr (env.getUnicastAddressFromInterface conf.coreIfaceName) = true) :
    NewUPF env conf = NewUPFResult.retNil ∧
    (NewPFCPIface env conf).upfRes = NewUPFResult.retNil := by
  have h1 : NewUPF env conf = NewUPFResult.retNil := by
    unfold NewUPF
    simp only [hid]
    cases ha : env.getUnicastAddressFromInterface conf.accessIfaceName
    case error e => simp [ipStep, hp4, ha]
    case ok a =>
      cases hc : env.getUnicastAddressFromInterface conf.coreIfaceName
      case error e => simp [ipStep, hp4, ha, hc]
      case ok c =>
        exfalso
        rcases hfail with hf | hf
        · rw [ha] at hf
          simp [isErr] at hf
        · rw [hc] at hf
          simp [isErr] at hf
  exact ⟨h1, by simp [NewPFCPIface, h1]⟩

/-- Witness for C10: access-interface lookup failure on the sample
software-pipeline configuration. -/
theorem newUPF_nil_on_unicast_failure_witness :
    NewUPF envAccessDown confBess = NewUPFResult.retNil ∧
    (NewPFCPIface envAccessDown confBess).upfRes = NewUPFResult.retNil :=
  newUPF_nil_on_unicast_failure envAccessDown confBess "upf-node" rfl rfl
    (Or.inl (by decide))

/-- C1: if `PutSession` with `pushPDR = true` fails with a backend
failure, the store is left exactly as it was; in particular a previously
absent F-SEID is still absent (found = false) afterwards. -/
theorem put_session_atomic_on_backend_failure
    (backend : PFCPSession → Option String) (st : SessionsMap) (s : PFCPSession)
    (pc mt fseid : Nat) (e : String)
    (hnew : GetSession st fseid = none)
    (herr : (PutSession backend st s pc true mt).2
              = some (StoreErr.backendFailure e)) :
    (PutSession backend st s pc true mt).1 = st ∧
    GetSession (PutSession backend st s pc true mt).1 fseid = none := by
  cases hb : backend s
  case none => simp [PutSession, hb] at herr
  case some msg =>
    refine ⟨?_, ?_⟩ <;> simp [PutSession, hb]
    exact hnew

/-- Witness for C1: putting a fresh session into the empty store with a
failing backend leaves the store empty. -/
theorem put_session_atomic_witness :
    (PutSession (fun _ => some "backend down") [] sessionSample 1 true 50).1 = [] ∧
    GetSession (PutSession (fun _ => some "backend down") [] sessionSample 1 true 50).1 42
      = none :=
  put_session_atomic_on_backend_failure (fun _ => some "backend down") [] sessionSample
    1 50 42 "backend down" rfl rfl

theorem newUPF_isFatal_eq (env : Env) (conf : Conf) :
    isFatalB (NewUPF env conf) = newUPFFatalCondB env conf := by
  unfold NewUPF
  cases hn : nodeIDStep env conf <;> simp only [hn]
  case error r =>
    simp [isFatalB, newUPFFatalCondB, identityResolutionFailsB, hn]
  case ok nid =>
  have hid : identityResolutionFailsB env conf = false := by
    simp [identityResolutionFailsB, hn]
  cases hip : ipStep env conf (baseUpf conf nid) <;> simp only [hip]
  case none =>
    have hu : unicastLookupFailsB env conf = true := by
      have h := ipStep_none_iff env conf (baseUpf conf nid)
      rw [hip] at h
      exact h.symm
    simp [isFatalB, newUPFFatalCondB, hid, hu]
  case some u1 =>
  have hu : unicastLookupFailsB env conf = false := by
    have h := ipStep_none_iff env conf (baseUpf conf nid)
    rw [hip] at h
    exact h.symm
  have hpr := ipStep_preserves env conf (baseUpf conf nid) u1 hip
  cases hrt : env.parseDuration conf.respTimeout <;> simp only [hrt]
  case error e =>
    have hrf : respParseFailsB env conf = true := by
      simp [respParseFailsB, isErr, hrt]
    simp [isFatalB, newUPFFatalCondB, hid, hu, hrf]
  case ok rt =>
  have hrf : respParseFailsB env conf = false := by
    simp [respParseFailsB, isErr, hrt]
  have hhbeq : ({ u1 with respTimeout := rt } : Upf).enableHBTimer
      = conf.enableHBTimer := by
    have : u1.enableHBTimer = (baseUpf conf nid).enableHBTimer := hpr.2.1
    simpa [baseUpf] using this
  cases hhb : hbStep env conf { u1 with respTimeout := rt } <;> simp only [hhb]
  case error r =>
    have hhf : hbParseFailsB env conf = true := by
      have h := hbStep_error_iff env conf { u1 with respTimeout := rt } hhbeq
      rw [hhb] at h
      simpa [isErr] using h.symm
    simp [isFatalB, newUPFFatalCondB, hid, hu, hhf]
  case ok u3 =>
  have hhf : hbParseFailsB env conf = false := by
    have h := hbStep_error_iff env conf { u1 with respTimeout := rt } hhbeq
    rw [hhb] at h
    simpa [isErr] using h.symm
  have hprh := hbStep_preserves env conf { u1 with respTimeout := rt } u3 hhb
  have halloc : u3.enableUeIPAlloc = conf.cpifaceEnableUeIPAlloc := by
    have h1 : u3.enableUeIPAlloc = u1.enableUeIPAlloc := by
      simpa using hprh.2.1
    have h2 : u1.enableUeIPAlloc = (baseUpf conf nid).enableUeIPAlloc := hpr.2.2.1
    simpa [baseUpf, h1] using h2
  have hcidr : u3.ippoolCidr = conf.cpifaceUEIPPool := by
    have h1 : u3.ippoolCidr = u1.ippoolCidr := by
      simpa using hprh.2.2
    have h2 : u1.ippoolCidr = (baseUpf conf nid).ippoolCidr := hpr.2.2.2
    simpa [baseUpf, h1] using h2
  cases hpool : poolStep env u3 <;> simp only [hpool]
  case error r =>
    have hpf : poolInitFailsB env conf = true := by
      have h := poolStep_error_iff env conf u3 halloc hcidr
      rw [hpool] at h
      simpa [isErr] using h.symm
    simp [isFatalB, newUPFFatalCondB, hid, hu, hpf]
  case ok u4 =>
    have hpf : poolInitFailsB env conf = false := by
      have h := poolStep_error_iff env conf u3 halloc hcidr
      rw [hpool] at h
      simpa [isErr] using h.symm
    simp [isFatalB, newUPFFatalCondB, hid, hu, hrf, hhf, hpf]

/-- C8 counterexample: with every configuration value valid (so none of
the four `NewUPF` configuration-error conditions holds), startup still
terminates the process when `setupProm` fails in `mustInit`, and likewise
when the HTTP server's `ListenAndServe` fails with an error other than
`ErrServerClosed` — so process termination at startup is not limited to
the listed unrecoverable configuration errors. -/
theorem startup_fatal_beyond_config_cex :
    startup envNoProm confBess HttpServeOutcome.serving
      = StartupResult.fatal StartupFatal.setupPromFailed ∧
    startup envAllOk confBess
        (HttpServeOutcome.failedWith "listen tcp :8080: address already in use")
      = StartupResult.fatal StartupFatal.httpServerFailed ∧
    newUPFFatalCondB envNoProm confBess = false ∧
    newUPFFatalCondB envAllOk confBess = false := by
  refine ⟨rfl, rfl, rfl, rfl⟩

/-- C8 (amended): startup terminates the process exactly when one of the
`NewUPF` configuration-error conditions holds — node-identity resolution
failure, or (if the unicast-address lookups did not already make `NewUPF`
return nil) an unparsable response timeout, an unparsable heartbeat
interval, or an IP pool initialization failure — or when the Prometheus
collector setup of `mustInit` fails, or when the HTTP server goroutine's
`ListenAndServe` fails with an error other than `ErrServerClosed`; no
per-session or per-request error terminates the process. -/
theorem startup_fatal_characterization (env : Env) (conf : Conf)
    (hs : HttpServeOutcome) :
    startupIsFatalB (startup env conf hs)
      = (newUPFFatalCondB env conf || !env.setupPromOk || httpServeFatalB hs) := by
  unfold startup
  have h := newUPF_isFatal_eq env conf
  cases hres : NewUPF env conf <;> rw [hres] at h <;> simp only [hres]
  case fatal r =>
    have hc : newUPFFatalCondB env conf = true := by
      simpa [isFatalB] using h.symm
    simp [startupIsFatalB, hc]
  case retNil =>
    have hc : newUPFFatalCondB env conf = false := by
      simpa [isFatalB] using h.symm
    cases hp : env.setupPromOk <;> cases hh : httpServeFatalB hs <;>
      simp [startupIsFatalB, hc, hh]
  case ok u =>
    have hc : newUPFFatalCondB env conf = false := by
      simpa [isFatalB] using h.symm
    cases hp : env.setupPromOk <;> cases hh : httpServeFatalB hs <;>
      simp [startupIsFatalB, hc, hh]

theorem pushAttempts_first_success (env : Env) :
    ∀ (fuel i n : Nat), i ≤ n → n < i + fuel →
      (∀ j, i ≤ j → j < n → env.httpPostOk j = false) →
      env.httpPostOk n = true →
      pushAttempts env fuel i = some (n + 1) := by
  intro fuel
  induction fuel with
  | zero =>
      intro i n hin hlt _ _
      omega
  | succ f ih =>
      intro i n hin hlt hbefore hn
      simp only [pushAttempts]
      by_cases hi : env.httpPostOk i = true
      · have hie : i = n := by
          by_contra hne
          have hlt2 : i < n := lt_of_le_of_ne hin hne
          have hf := hbefore i (le_refl i) hlt2
          rw [hf] at hi
          cases hi
        subst hie
        simp [hi]
      · have hi' : env.httpPostOk i = false := by
          cases hv : env.httpPostOk i
          · rfl
          · exact absurd hv hi
        have hlt2 : i < n := by
          rcases Nat.lt_or_ge i n with hc | hc
          · exact hc
          · exfalso
            have hie : i = n := Nat.le_antisymm hin hc
            rw [hie, hn] at hi'
            cases hi'
        simp only [hi', Bool.false_eq_true, if_false]
        exact ih (i + 1) n (by omega) (by omega)
          (fun j hj1 hj2 => hbefore j (by omega) hj2) hn

/-- C6 (amended): the startup registration of the node's address is a
JSON POST retried until one request succeeds (the n-th attempt being the
first success, exactly n + 1 requests are issued); however it runs
synchronously in `Run` between the signal-handler installation and
`node.Serve()`, so session serving starts only after registration has
succeeded rather than independently of it. -/
theorem registration_retries_until_success_then_serve
    (env : Env) (ip : String) (n fuel : Nat)
    (hprom : env.setupPromOk = true)
    (hbefore : ∀ i, i < n → env.httpPostOk i = false)
    (hn : env.httpPostOk n = true)
    (hfuel : n < fuel) :
    runTrace env fuel
      = [RunEvent.mustInitDone, RunEvent.httpListenStarted,
         RunEvent.signalHandlersInstalled, RunEvent.pfcpInfoPushed (n + 1),
         RunEvent.serveStarted] ∧
    (pfcpRegisterRequest ip).method = "POST" ∧
    (pfcpRegisterRequest ip).contentType = "application/json" ∧
    (pfcpRegisterRequest ip).body = pfcpInfoJson ip := by
  have hp : pushAttempts env fuel 0 = some (n + 1) :=
    pushAttempts_first_success env fuel 0 n (Nat.zero_le n) (by omega)
      (fun j _ hj => hbefore j hj) hn
  refine ⟨?_, rfl, rfl, rfl⟩
  simp [runTrace, hprom, hp]

/-- Witness for the amended C6 on the sample environment, whose POSTs
succeed from the third attempt on. -/
theorem registration_retries_witness :
    runTrace envAllOk 5
      = [RunEvent.mustInitDone, RunEvent.httpListenStarted,
         RunEvent.signalHandlersInstalled, RunEvent.pfcpInfoPushed 3,
         RunEvent.serveStarted] ∧
    (pfcpRegisterRequest "10.0.0.1").method = "POST" ∧
    (pfcpRegisterRequest "10.0.0.1").contentType = "application/json" ∧
    (pfcpRegisterRequest "10.0.0.1").body = pfcpInfoJson "10.0.0.1" :=
  registration_retries_until_success_then_serve envAllOk "10.0.0.1" 2 5 rfl
    (by decide) (by decide) (by decide)

/-- C6 counterexample: when no registration POST ever succeeds, `Run`
never reaches `node.Serve()` — session serving waits on the registration
loop, refuting the claim that serving is independent of it. -/
theorem serving_waits_on_registration_cex :
    RunEvent.serveStarted ∉ runTrace envPostNeverOk 5 ∧
    runTrace envPostNeverOk 5
      = [RunEvent.mustInitDone, RunEvent.httpListenStarted,
         RunEvent.signalHandlersInstalled] := by
  refine ⟨by decide, rfl⟩

end Pfcpiface
